import Mathlib

/-!
Verification of the python-market-data repository: a shallow embedding of
marketData.py and marketDataGraph.py (historical-data fetcher, ticker
metadata lookup, candlestick chart renderer) with theorems about the
data-shaping, validation and failure-handling behavior.
-/

set_option autoImplicit false

namespace MarketData

/-- One cell of a pandas DataFrame as far as numeric coercion can see it:
a numeric value, a non-numeric value (a value that pandas to_numeric with
errors set to coerce cannot parse), or a missing value (NaN). -/
inductive Cell where
  | num (v : Int)
  | nonnum (s : String)
  | na
  deriving DecidableEq

/-- pd.to_numeric with errors set to coerce, applied to one cell: numeric
values pass through, non-numeric values become missing, missing stays
missing (marketDataGraph.py line 98). -/
def Cell.toNumeric : Cell → Cell
  | Cell.num v => Cell.num v
  | Cell.nonnum _ => Cell.na
  | Cell.na => Cell.na

/-- A pandas DataFrame with single-level columns: column names plus rows of
cells, each row aligned positionally with the column list. -/
structure DF where
  cols : List String
  rows : List (List Cell)
  deriving DecidableEq

/-- The all-empty DataFrame, pd.DataFrame(). -/
def emptyDF : DF := { cols := [], rows := [] }

/-- DataFrame.empty in pandas: true when either axis has length zero. -/
def DF.empty (df : DF) : Bool := df.rows.isEmpty || df.cols.isEmpty

/-- Column selection data[cs] followed by .copy() (marketDataGraph.py
line 95): the new frame has exactly the requested columns, and each row
keeps, in the requested order, the cell at the position of each requested
column name. -/
def DF.select (df : DF) (cs : List String) : DF :=
  { cols := cs
    rows := df.rows.map (fun r => cs.map (fun c => r.getD (df.cols.indexOf c) Cell.na)) }

/-- In-place numeric coercion of one named column (the body of the loop at
marketDataGraph.py lines 97-98): every row gets the cell at that column's
position replaced by its coerced value. -/
def DF.coerceCol (df : DF) (c : String) : DF :=
  let i := df.cols.indexOf c
  { cols := df.cols
    rows := df.rows.map (fun r => r.set i (r.getD i Cell.na).toNumeric) }

/-- Folding the coercion over an explicit list of column names. -/
def DF.coerceCols (df : DF) (cs : List String) : DF :=
  cs.foldl DF.coerceCol df

/-- The loop for col in plot_data.columns (marketDataGraph.py lines 97-98):
coerce every column of the frame, in column order. -/
def coerceAll (df : DF) : DF := df.coerceCols df.cols

/-- DataFrame.dropna with default arguments (marketDataGraph.py line 100):
keep exactly the rows with no missing value in any column, in order. -/
def dropna (df : DF) : DF :=
  { cols := df.cols
    rows := df.rows.filter (fun r => r.all (fun c => !(c == Cell.na))) }

/-- The five required OHLCV columns (marketDataGraph.py line 87). -/
def required_cols : List String := ["Open", "High", "Low", "Close", "Volume"]

/-- The cleaning pipeline of marketDataGraph.py lines 95-100: select the
five required columns into a copy, coerce each to numeric, drop incomplete
rows. -/
def cleanedData (df : DF) : DF := dropna (coerceAll (df.select required_cols))

/-- The console messages create_candlestick_chart can print, captured in
structured form: the missingCols message carries the column list the code
interpolates into the error text and the available-columns list. -/
inductive Msg where
  | noData
  | creating (ticker : String)
  | missingCols (listed : List String) (available : List String)
  | chartSaved (path : String)
  | plotError (err : String)
  deriving DecidableEq

/-- The argument record passed to mpf.plot (marketDataGraph.py
lines 108-118), including the savefig target path. -/
structure PlotArgs where
  data : DF
  ptype : String
  style : String
  title : String
  ylabel : String
  volume : Bool
  show_nontrading : Bool
  figscale : Rat
  savefig : String
  deriving DecidableEq

/-- The mpf.plot argument record the renderer builds for a cleaned frame
and a ticker (marketDataGraph.py lines 103-118). -/
def mkPlotArgs (plotData : DF) (ticker : String) : PlotArgs :=
  { data := plotData
    ptype := "candle"
    style := "charles"
    title := ticker ++ " Candlestick Chart"
    ylabel := "Price"
    volume := true
    show_nontrading := false
    figscale := (3 : Rat) / 2
    savefig := ticker ++ "_candlestick_chart.png" }

/-- Modelled external chart library (mplfinance mpf.plot): it raises an
exception when given a frame with no rows, and otherwise draws the chart
and saves the image at the savefig path. Only this success/failure shape
is relied on; the repository catches any exception it raises. -/
def mpf_plot (args : PlotArgs) : Except String Unit :=
  if args.data.rows.isEmpty then Except.error ("no data to plot") else Except.ok ()

/-- The observable outcome of one create_candlestick_chart call: the
console messages in order, the mpf.plot invocation if one was made, and
the file write if the plot succeeded. -/
structure RenderOutcome where
  messages : List Msg
  plotCall : Option PlotArgs
  written : Option PlotArgs
  deriving DecidableEq

/-- create_candlestick_chart (marketDataGraph.py lines 72-121): return on
an empty frame; inside the try block, check the required columns, clean a
copy of the five columns, call mpf.plot with the chart options and the
savefig path; any exception from plotting is caught and printed. -/
def create_candlestick_chart (data : DF) (ticker : String) : RenderOutcome :=
  if data.empty then
    { messages := [Msg.noData], plotCall := none, written := none }
  else if !(required_cols.all (fun c => data.cols.contains c)) then
    { messages := [Msg.creating ticker, Msg.missingCols required_cols data.cols]
      plotCall := none, written := none }
  else
    let plot_data := cleanedData data
    let args := mkPlotArgs plot_data ticker
    match mpf_plot args with
    | Except.ok _ =>
        { messages := [Msg.creating ticker, Msg.chartSaved args.savefig]
          plotCall := some args, written := some args }
    | Except.error e =>
        { messages := [Msg.creating ticker, Msg.plotError e]
          plotCall := some args, written := none }

/-- A pandas DataFrame as yf.download returns it for possibly many
tickers: two-level columns, each a (field, ticker) pair, plus rows of
cells aligned positionally with the column list. -/
structure MultiDF where
  cols : List (String × String)
  rows : List (List Cell)
  deriving DecidableEq

/-- The all-empty downloaded frame, pd.DataFrame(). -/
def emptyMDF : MultiDF := { cols := [], rows := [] }

/-- DataFrame.empty on a downloaded frame. -/
def MultiDF.empty (d : MultiDF) : Bool := d.rows.isEmpty || d.cols.isEmpty

/-- Whether a ticker occurs in the second column level, so that xs on that
level succeeds instead of raising KeyError. -/
def MultiDF.hasKey (d : MultiDF) (t : String) : Bool :=
  d.cols.any (fun p => p.2 == t)

/-- The column positions whose second level equals the ticker. -/
def MultiDF.keyIdxs (d : MultiDF) (t : String) : List Nat :=
  (List.range d.cols.length).filter (fun i => (d.cols.getD i ("", "")).2 == t)

/-- data.xs(ticker, axis=1, level=1) (marketDataGraph.py line 43): keep
every row, select the columns whose second level is the ticker, and drop
that level, leaving a single-level OHLCV frame for one ticker. -/
def MultiDF.xs (d : MultiDF) (t : String) : DF :=
  { cols := (d.keyIdxs t).map (fun i => (d.cols.getD i ("", "")).1)
    rows := d.rows.map (fun r => (d.keyIdxs t).map (fun i => r.getD i Cell.na)) }

/-- One insertion into a python dict held as an insertion-ordered
association list: an existing key keeps its place and gets the new value,
a new key is appended. -/
def dictInsert (m : List (String × DF)) (k : String) (v : DF) : List (String × DF) :=
  if m.any (fun p => p.1 == k) then
    m.map (fun p => if p.1 == k then (k, v) else p)
  else m ++ [(k, v)]

/-- The dict comprehension at marketDataGraph.py line 43, built key by key
in request order with python dict semantics. -/
def dictOfKeys (ts : List String) (f : String → DF) : List (String × DF) :=
  ts.foldl (fun m t => dictInsert m t (f t)) []

/-- The dict comprehension including its failure mode: if any requested
ticker is absent from the column level, xs raises KeyError and the
comprehension as a whole fails (the exception is caught by the caller). -/
def splitAll (d : MultiDF) (ts : List String) : Option (List (String × DF)) :=
  if ts.all (fun t => d.hasKey t) then some (dictOfKeys ts (fun t => d.xs t)) else none

/-- The tickers argument: python distinguishes a plain string from a list
of strings with isinstance checks (marketDataGraph.py lines 37, 42). -/
inductive Tickers where
  | str (s : String)
  | list (ts : List String)
  deriving DecidableEq

/-- What get_historical_data in marketDataGraph.py can return: the
downloaded frame itself, or a dict mapping each ticker to its own frame. -/
inductive FetchResult where
  | table (d : MultiDF)
  | mapping (m : List (String × DF))
  deriving DecidableEq

/-- The empty sentinel of marketDataGraph.py lines 37 and 50: an empty
frame for a string argument, an empty dict for a list argument. -/
def emptySentinel (tickers : Tickers) : FetchResult :=
  match tickers with
  | Tickers.str _ => FetchResult.table emptyMDF
  | Tickers.list _ => FetchResult.mapping []

/-- The start date actually used (marketData.py lines 22-23,
marketDataGraph.py lines 27-28): the given date, or today minus 365 days.
Dates are day numbers. -/
def resolveStart (today : Int) (s? : Option Int) : Int :=
  match s? with
  | some s => s
  | none => today - 365

/-- The end date actually used (marketData.py lines 24-25,
marketDataGraph.py lines 29-30): the given date, or today. -/
def resolveEnd (today : Int) (e? : Option Int) : Int :=
  match e? with
  | some e => e
  | none => today

/-- The provider (yf.download) as an oracle from the resolved request
parameters, start date, end date and interval, to either a downloaded
frame or a raised error. -/
def Fetch : Type := Int → Int → String → Except String MultiDF

/-- get_historical_data of marketDataGraph.py (lines 10-50): resolve the
default dates, download, map an empty download or any raised error to the
empty sentinel for the argument shape, split into a per-ticker dict only
when a list of more than one ticker was requested, and otherwise return
the downloaded frame itself. -/
def get_historical_data_graph (fetch : Fetch) (tickers : Tickers)
    (today : Int) (s? e? : Option Int) (interval : String) : FetchResult :=
  match fetch (resolveStart today s?) (resolveEnd today e?) interval with
  | Except.error _ => emptySentinel tickers
  | Except.ok data =>
      if data.empty then emptySentinel tickers
      else
        match tickers with
        | Tickers.list ts =>
            if ts.length > 1 then
              match splitAll data ts with
              | some m => FetchResult.mapping m
              | none => emptySentinel tickers
            else FetchResult.table data
        | Tickers.str _ => FetchResult.table data

/-- get_historical_data of marketData.py (lines 6-37): resolve the default
dates, download, return the downloaded frame whether empty or not, and
return an empty frame when the provider raises. -/
def get_historical_data (fetch : Fetch) (today : Int) (s? e? : Option Int)
    (interval : String) : MultiDF :=
  match fetch (resolveStart today s?) (resolveEnd today e?) interval with
  | Except.error _ => emptyMDF
  | Except.ok data => data

/-- A yfinance Ticker metadata handle: the symbol it was built for and its
info field map of optional scalar values. -/
structure Ticker where
  symbol : String
  info : List (String × Cell)
  deriving DecidableEq

/-- get_ticker_info of marketData.py lines 40-56 and marketDataGraph.py
lines 53-69: the provider's metadata lookup as an oracle; any raised error
is caught and None is returned instead. -/
def get_ticker_info (provider : Except String Ticker) : Option Ticker :=
  match provider with
  | Except.ok t => some t
  | Except.error _ => none

/-- A filesystem restricted to what the renderer touches: image files by
path, each holding the plot that produced it. -/
def FS : Type := String → Option PlotArgs

/-- Applying the renderer's file write (if any) to a filesystem: a saved
plot overwrites whatever was at its savefig path; no write leaves the
filesystem untouched. -/
def applyWrite (fs : FS) (w : Option PlotArgs) : FS :=
  match w with
  | none => fs
  | some a => fun p => if p = a.savefig then some a else fs p

/-- create_candlestick_chart against an explicit heap of DataFrame
objects, making the python aliasing visible: the caller's frame lives at
index i, data[required_cols].copy() allocates a fresh frame at the end of
the heap, and the in-place column assignments and dropna(inplace=True)
mutate only that fresh slot (marketDataGraph.py lines 95-100). -/
def create_candlestick_chart_heap (h : List DF) (i : Nat) (ticker : String) :
    List DF × RenderOutcome :=
  let data := h.getD i emptyDF
  if data.empty then
    (h, { messages := [Msg.noData], plotCall := none, written := none })
  else if !(required_cols.all (fun c => data.cols.contains c)) then
    (h, { messages := [Msg.creating ticker, Msg.missingCols required_cols data.cols]
          plotCall := none, written := none })
  else
    let j := h.length
    let h1 := h ++ [data.select required_cols]
    let h2 := h1.set j (coerceAll (h1.getD j emptyDF))
    let h3 := h2.set j (dropna (h2.getD j emptyDF))
    let plot_data := h3.getD j emptyDF
    let args := mkPlotArgs plot_data ticker
    match mpf_plot args with
    | Except.ok _ =>
        (h3, { messages := [Msg.creating ticker, Msg.chartSaved args.savefig]
               plotCall := some args, written := some args })
    | Except.error e =>
        (h3, { messages := [Msg.creating ticker, Msg.plotError e]
               plotCall := some args, written := none })

/-- Sample frame: three complete OHLCV rows except for a non-numeric Close
value in the middle row. -/
def dfDemo : DF :=
  { cols := required_cols
    rows := [[Cell.num 10, Cell.num 12, Cell.num 9, Cell.num 11, Cell.num 100],
             [Cell.num 11, Cell.num 13, Cell.num 10, Cell.nonnum "oops", Cell.num 90],
             [Cell.num 12, Cell.num 14, Cell.num 11, Cell.num 13, Cell.num 80]] }

/-- Sample frame with the Volume column missing. -/
def dfNoVolume : DF :=
  { cols := ["Open", "High", "Low", "Close"]
    rows := [[Cell.num 1, Cell.num 2, Cell.num 0, Cell.num 1]] }

/-- Sample frame with no rows and with the Volume column missing. -/
def dfEmptyMissing : DF :=
  { cols := ["Open", "High", "Low", "Close"]
    rows := [] }

/-- Sample frame whose single row has a non-numeric Close, so cleaning
leaves no rows. -/
def dfAllBad : DF :=
  { cols := required_cols
    rows := [[Cell.num 1, Cell.num 2, Cell.num 0, Cell.nonnum "x", Cell.num 9]] }

/-- Sample downloaded frame for two tickers A and B. -/
def mdDemo : MultiDF :=
  { cols := [("Open", "A"), ("Open", "B"), ("Close", "A"), ("Close", "B")]
    rows := [[Cell.num 1, Cell.num 2, Cell.num 3, Cell.num 4],
             [Cell.num 5, Cell.num 6, Cell.num 7, Cell.num 8]] }

/-- A provider oracle that always succeeds with the sample frame. -/
def fetchOkDemo : Fetch := fun _ _ _ => Except.ok mdDemo

/-- A provider oracle that always raises. -/
def fetchErrDemo : Fetch := fun _ _ _ => Except.error ("connection reset")

/-- A provider oracle that succeeds with an empty frame. -/
def fetchEmptyDemo : Fetch := fun _ _ _ => Except.ok emptyMDF

/-- The set of required columns a frame is missing, in required order;
written from the spec's words ("the missing set") to compare with the
column list the code actually prints. -/
def missingSet (df : DF) : List String :=
  required_cols.filter (fun c => !(df.cols.contains c))

/-- The spec's description of the missing-column diagnostic, written from
the spec's words: among the printed messages there is a missing-columns
diagnostic whose listed columns are exactly the missing set. -/
def specMissingDiagnostic (df : DF) (o : RenderOutcome) : Prop :=
  Msg.missingCols (missingSet df) df.cols ∈ o.messages

/-- Coercing the five selected columns one column at a time, as the python
loop does, coerces every cell of the selected frame exactly once: each
selected row has length five and the five column names are distinct, so
the per-column position updates tile the row. -/
theorem coerceAll_select (df : DF) :
    coerceAll (df.select required_cols) =
      { cols := required_cols
        rows := (df.select required_cols).rows.map (fun r => r.map Cell.toNumeric) } := by
  simp only [coerceAll, DF.coerceCols, DF.coerceCol, DF.select, required_cols,
    List.foldl, List.map_map]
  rfl

/-- On a nonempty frame with all required columns, the renderer reaches
the plotting call with the cleaned frame. -/
theorem create_plotCall (df : DF) (ticker : String)
    (hcols : required_cols.all (fun c => df.cols.contains c) = true)
    (hne : df.empty = false) :
    (create_candlestick_chart df ticker).plotCall =
      some (mkPlotArgs (cleanedData df) ticker) := by
  rw [create_candlestick_chart]
  rw [hne, hcols]
  cases h : mpf_plot (mkPlotArgs (cleanedData df) ticker) <;> simp [h]

/-- C1: for every price-bar table containing the Open, High, Low, Close
and Volume columns (and nonempty, so the renderer reaches the cleaning
stage), create_candlestick_chart coerces each of the five selected columns
to numeric, turning every non-numeric value into a missing value, keeps
exactly the rows in which all five original cells coerce to a numeric
value, preserves their original order, and passes the resulting frame to
the chart library. -/
theorem claim1_clean_drops_exactly_incomplete_rows (df : DF) (ticker : String)
    (hcols : required_cols.all (fun c => df.cols.contains c) = true)
    (hne : df.empty = false) :
    (cleanedData df).rows =
      ((df.select required_cols).rows.map (fun r => r.map Cell.toNumeric)).filter
        (fun r => r.all (fun c => !(c == Cell.na)))
    ∧ (cleanedData df).rows =
      ((df.select required_cols).rows.filter
        (fun r => r.all (fun c => !(c.toNumeric == Cell.na)))).map
        (fun r => r.map Cell.toNumeric)
    ∧ List.Sublist (cleanedData df).rows
        ((df.select required_cols).rows.map (fun r => r.map Cell.toNumeric))
    ∧ (create_candlestick_chart df ticker).plotCall =
        some (mkPlotArgs (cleanedData df) ticker) := by
  have h1 : (cleanedData df).rows =
      ((df.select required_cols).rows.map (fun r => r.map Cell.toNumeric)).filter
        (fun r => r.all (fun c => !(c == Cell.na))) := by
    rw [cleanedData, coerceAll_select]
    rfl
  refine ⟨h1, ?_, ?_, create_plotCall df ticker hcols hne⟩
  · rw [h1, List.filter_map]
    apply congrArg
    apply List.filter_congr
    intro r hr
    show (r.map Cell.toNumeric).all (fun c => !(c == Cell.na)) = _
    rw [List.all_map]
    rfl
  · rw [h1]
    exact List.filter_sublist _

/-- Witness for C1 at a concrete three-row table whose middle row has a
non-numeric Close: exactly that row is dropped, the other two rows are
kept in order, and the renderer invokes the chart library and saves the
file. -/
theorem claim1_witness :
    (required_cols.all (fun c => dfDemo.cols.contains c) = true
      ∧ dfDemo.empty = false)
    ∧ (cleanedData dfDemo).rows =
      ((dfDemo.select required_cols).rows.map (fun r => r.map Cell.toNumeric)).filter
        (fun r => r.all (fun c => !(c == Cell.na)))
    ∧ (create_candlestick_chart dfDemo "AAPL").plotCall =
        some (mkPlotArgs (cleanedData dfDemo) "AAPL")
    ∧ (cleanedData dfDemo).rows =
      [[Cell.num 10, Cell.num 12, Cell.num 9, Cell.num 11, Cell.num 100],
       [Cell.num 12, Cell.num 14, Cell.num 11, Cell.num 13, Cell.num 80]]
    ∧ (create_candlestick_chart dfDemo "AAPL").written.isSome = true := by
  have h := claim1_clean_drops_exactly_incomplete_rows dfDemo "AAPL"
    (by decide) (by decide)
  exact ⟨⟨by decide, by decide⟩, h.1, h.2.2.2, by decide, by decide⟩

/-- C2 (counterexample): at a concrete nonempty table missing only the
Volume column, the renderer does abort with no image file, but the
diagnostic it emits lists the full required column list, not the missing
set of columns, so the claim that the diagnostic lists the missing set is
false on the code. -/
theorem claim2_counterexample :
    ((create_candlestick_chart dfNoVolume "TST").written = none
      ∧ missingSet dfNoVolume = ["Volume"]
      ∧ ¬ specMissingDiagnostic dfNoVolume (create_candlestick_chart dfNoVolume "TST")
      ∧ Msg.missingCols required_cols dfNoVolume.cols
          ∈ (create_candlestick_chart dfNoVolume "TST").messages)
    ∧ ((create_candlestick_chart dfEmptyMissing "TST2").messages = [Msg.noData]
      ∧ ¬ specMissingDiagnostic dfEmptyMissing
          (create_candlestick_chart dfEmptyMissing "TST2")) := by
  refine ⟨⟨by decide, by decide, ?_, by decide⟩, by decide, ?_⟩
  · show ¬ (Msg.missingCols (missingSet dfNoVolume) dfNoVolume.cols
      ∈ (create_candlestick_chart dfNoVolume "TST").messages)
    decide
  · show ¬ (Msg.missingCols (missingSet dfEmptyMissing) dfEmptyMissing.cols
      ∈ (create_candlestick_chart dfEmptyMissing "TST2").messages)
    decide

/-- C2 (amended): for every nonempty table that is missing at least one of
the columns Open, High, Low, Close, Volume, create_candlestick_chart
aborts before any plotting: it emits a diagnostic listing the full
required column set together with the columns actually present, and it
produces no image file. -/
theorem claim2_missing_columns_abort (df : DF) (ticker : String)
    (hne : df.empty = false)
    (hmiss : required_cols.all (fun c => df.cols.contains c) = false) :
    (create_candlestick_chart df ticker).written = none
    ∧ (create_candlestick_chart df ticker).plotCall = none
    ∧ Msg.missingCols required_cols df.cols
        ∈ (create_candlestick_chart df ticker).messages
    ∧ ∀ fs : FS, applyWrite fs (create_candlestick_chart df ticker).written = fs := by
  rw [create_candlestick_chart, hne, hmiss]
  refine ⟨rfl, rfl, by simp, fun fs => rfl⟩

/-- Witness for C2 at the concrete table missing only Volume. -/
theorem claim2_witness :
    (dfNoVolume.empty = false
      ∧ (required_cols.all (fun c => dfNoVolume.cols.contains c)) = false)
    ∧ (create_candlestick_chart dfNoVolume "MSFT").written = none
    ∧ Msg.missingCols required_cols dfNoVolume.cols
        ∈ (create_candlestick_chart dfNoVolume "MSFT").messages := by
  have h := claim2_missing_columns_abort dfNoVolume "MSFT" (by decide) (by decide)
  exact ⟨⟨by decide, by decide⟩, h.1, h.2.2.1⟩

/-- C3: for every input table and symbol, if the table is empty before
cleaning the renderer returns at once with a diagnostic and no image file,
and if the table is nonempty with all required columns but cleaning leaves
no rows, the chart library raises, the renderer catches it, prints a
diagnostic, and again no image file is produced. -/
theorem claim3_empty_table_aborts (df : DF) (ticker : String) :
    (df.empty = true →
      (create_candlestick_chart df ticker).written = none
      ∧ (create_candlestick_chart df ticker).plotCall = none
      ∧ Msg.noData ∈ (create_candlestick_chart df ticker).messages
      ∧ ∀ fs : FS, applyWrite fs (create_candlestick_chart df ticker).written = fs)
    ∧ (df.empty = false →
      required_cols.all (fun c => df.cols.contains c) = true →
      (cleanedData df).rows = [] →
      (create_candlestick_chart df ticker).written = none
      ∧ (∃ e, Msg.plotError e ∈ (create_candlestick_chart df ticker).messages)
      ∧ ∀ fs : FS, applyWrite fs (create_candlestick_chart df ticker).written = fs) := by
  constructor
  · intro he
    rw [create_candlestick_chart, he]
    exact ⟨rfl, rfl, by simp, fun fs => rfl⟩
  · intro hne hcols hrows
    have hplot : mpf_plot (mkPlotArgs (cleanedData df) ticker) =
        Except.error ("no data to plot") := by
      rw [mpf_plot]
      simp [mkPlotArgs, hrows]
    rw [create_candlestick_chart, hne, hcols]
    simp only [Bool.not_true, Bool.false_eq_true, if_false, hplot]
    exact ⟨trivial, ⟨"no data to plot", by simp⟩, fun fs => rfl⟩

/-- Witness for C3: the empty branch at the literally empty table, and the
empty-after-cleaning branch at a one-row table whose Close is
non-numeric. -/
theorem claim3_witness :
    (emptyDF.empty = true
      ∧ (create_candlestick_chart emptyDF "A").written = none
      ∧ Msg.noData ∈ (create_candlestick_chart emptyDF "A").messages)
    ∧ (dfAllBad.empty = false
      ∧ required_cols.all (fun c => dfAllBad.cols.contains c) = true
      ∧ (cleanedData dfAllBad).rows = []
      ∧ (create_candlestick_chart dfAllBad "B").written = none
      ∧ (∃ e, Msg.plotError e ∈ (create_candlestick_chart dfAllBad "B").messages)) := by
  have h1 := (claim3_empty_table_aborts emptyDF "A").1 (by decide)
  have h2 := (claim3_empty_table_aborts dfAllBad "B").2 (by decide) (by decide) (by decide)
  exact ⟨⟨by decide, h1.1, h1.2.2.1⟩,
    ⟨by decide, by decide, by decide, h2.1, h2.2.1⟩⟩

/-- A successful render writes exactly the argument record built from the
cleaned frame, and the whole outcome is the success outcome for it. -/
theorem create_written_eq (df : DF) (ticker : String) (a : PlotArgs)
    (h : (create_candlestick_chart df ticker).written = some a) :
    a = mkPlotArgs (cleanedData df) ticker
    ∧ create_candlestick_chart df ticker =
      { messages := [Msg.creating ticker, Msg.chartSaved a.savefig]
        plotCall := some a, written := some a } := by
  unfold create_candlestick_chart at h ⊢
  split at h
  · simp at h
  · split at h
    · simp at h
    · dsimp only at h
      split at h
      · rename_i he hc x u hp
        simp only [Option.some.injEq] at h
        subst h
        rw [if_neg he, if_neg hc]
        dsimp only
        rw [hp]
        exact ⟨rfl, rfl⟩
      · simp at h

/-- C8: every successful render performs exactly one file write: the chart
library is told to draw a candle chart with a volume panel, title "ticker
Candlestick Chart", y-axis label "Price", non-trading periods suppressed,
and to save to "ticker_candlestick_chart.png", and applying the write to
any filesystem replaces exactly that path (overwriting whatever was there)
and touches no other path. -/
theorem claim8_single_overwriting_write (df : DF) (ticker : String) (a : PlotArgs)
    (h : (create_candlestick_chart df ticker).written = some a) :
    a.savefig = ticker ++ "_candlestick_chart.png"
    ∧ a.title = ticker ++ " Candlestick Chart"
    ∧ a.ptype = "candle"
    ∧ a.ylabel = "Price"
    ∧ a.volume = true
    ∧ a.show_nontrading = false
    ∧ a.data = cleanedData df
    ∧ Msg.chartSaved a.savefig ∈ (create_candlestick_chart df ticker).messages
    ∧ ∀ fs : FS,
        applyWrite fs (some a) a.savefig = some a
        ∧ ∀ q, q ≠ a.savefig → applyWrite fs (some a) q = fs q := by
  obtain ⟨ha, hout⟩ := create_written_eq df ticker a h
  subst ha
  refine ⟨rfl, rfl, rfl, rfl, rfl, rfl, rfl, ?_, ?_⟩
  · rw [hout]
    simp
  · intro fs
    constructor
    · show (fun p => if p = _ then _ else fs p) _ = _
      simp
    · intro q hq
      show (fun p => if p = _ then _ else fs p) q = fs q
      simp only []
      rw [if_neg hq]

/-- Witness for C8: at the concrete good table the renderer saves the
file, and the saved record carries the specified labels and path. -/
theorem claim8_witness :
    (create_candlestick_chart dfDemo "AAPL").written =
      some (mkPlotArgs (cleanedData dfDemo) "AAPL")
    ∧ (mkPlotArgs (cleanedData dfDemo) "AAPL").savefig = "AAPL_candlestick_chart.png"
    ∧ (mkPlotArgs (cleanedData dfDemo) "AAPL").title = "AAPL Candlestick Chart" := by
  have h0 : (create_candlestick_chart dfDemo "AAPL").written =
      some (mkPlotArgs (cleanedData dfDemo) "AAPL") := rfl
  have h := claim8_single_overwriting_write dfDemo "AAPL"
    (mkPlotArgs (cleanedData dfDemo) "AAPL") h0
  exact ⟨h0, h.1, h.2.1⟩

/-- Reading back the slot just written. -/
theorem getD_set_self (l : List DF) (a : DF) (n : Nat) (hn : n < l.length) :
    (l.set n a).getD n emptyDF = a := by
  rw [List.getD_eq_getElem?_getD, List.getElem?_set_eq_of_lt a hn]
  rfl

/-- Writing one slot leaves every other slot unchanged. -/
theorem getD_set_ne_of_ne (l : List DF) (a : DF) (n k : Nat) (hk : n ≠ k) :
    (l.set n a).getD k emptyDF = l.getD k emptyDF := by
  rw [List.getD_eq_getElem?_getD, List.getElem?_set_ne hk, ← List.getD_eq_getElem?_getD]

/-- Appending new slots leaves the old slots unchanged. -/
theorem getD_append_of_lt (l m : List DF) (k : Nat) (hk : k < l.length) :
    (l ++ m).getD k emptyDF = l.getD k emptyDF := by
  rw [List.getD_eq_getElem?_getD, List.getElem?_append_left hk, ← List.getD_eq_getElem?_getD]

/-- Every heap slot that existed before the render call still holds the
same frame afterwards: the copy is allocated past the end of the heap and
all in-place updates target only the copy's slot. -/
theorem heap_frames_preserved (h : List DF) (i : Nat) (ticker : String) (k : Nat)
    (hk : k < h.length) :
    (create_candlestick_chart_heap h i ticker).1.getD k emptyDF = h.getD k emptyDF := by
  unfold create_candlestick_chart_heap
  generalize h.getD i emptyDF = d
  cases hd : d.empty with
  | true => simp [hd]
  | false =>
    cases hc : required_cols.all (fun c => d.cols.contains c) with
    | false =>
      simp only [hd, hc, Bool.not_false, eq_self_iff_true, if_true,
        Bool.false_eq_true, if_false]
    | true =>
      simp only [hd, hc, Bool.not_true, Bool.false_eq_true, if_false]
      try dsimp only
      have hne : h.length ≠ k := (Nat.ne_of_lt hk).symm
      split
      all_goals
        dsimp only
        rw [getD_set_ne_of_ne _ _ _ _ hne, getD_set_ne_of_ne _ _ _ _ hne,
          getD_append_of_lt _ _ _ hk]

/-- The heap-level renderer computes the same observable outcome as the
pure renderer applied to the frame at the given slot. -/
theorem heap_outcome_agrees (h : List DF) (i : Nat) (ticker : String) :
    (create_candlestick_chart_heap h i ticker).2 =
      create_candlestick_chart (h.getD i emptyDF) ticker := by
  unfold create_candlestick_chart_heap create_candlestick_chart
  generalize h.getD i emptyDF = d
  cases hd : d.empty with
  | true => simp [hd]
  | false =>
    cases hc : required_cols.all (fun c => d.cols.contains c) with
    | false =>
      simp only [hd, hc, Bool.not_false, eq_self_iff_true, if_true,
        Bool.false_eq_true, if_false]
    | true =>
      simp only [hd, hc, Bool.not_true, Bool.false_eq_true, if_false]
      try dsimp only
      have hlt1 : h.length < (h ++ [d.select required_cols]).length := by
        simp
      have e1 : (h ++ [d.select required_cols]).getD h.length emptyDF
          = d.select required_cols := by
        rw [List.getD_eq_getElem?_getD, List.getElem?_concat_length]
        rfl
      rw [e1]
      rw [getD_set_self _ _ _ hlt1]
      have hlt2 : h.length <
          ((h ++ [d.select required_cols]).set h.length
            (coerceAll (d.select required_cols))).length := by
        simp only [List.length_set]
        exact hlt1
      rw [getD_set_self _ _ _ hlt2]
      simp only [cleanedData]
      cases hll : mpf_plot (mkPlotArgs (dropna (coerceAll (d.select required_cols))) ticker) with
      | ok u => rfl
      | error e => rfl

/-- C9: create_candlestick_chart leaves the caller's table unchanged: run
against an explicit heap, the frame at the caller's slot (and every other
pre-existing slot) is identical after the call, because cleaning happens
on a fresh copy of the five required columns; and the outcome computed on
the heap agrees with the pure renderer. -/
theorem claim9_input_table_unchanged (h : List DF) (i : Nat) (ticker : String)
    (hi : i < h.length) :
    (create_candlestick_chart_heap h i ticker).1.getD i emptyDF = h.getD i emptyDF
    ∧ (∀ k, k < h.length →
        (create_candlestick_chart_heap h i ticker).1.getD k emptyDF = h.getD k emptyDF)
    ∧ (create_candlestick_chart_heap h i ticker).2 =
        create_candlestick_chart (h.getD i emptyDF) ticker :=
  ⟨heap_frames_preserved h i ticker i hi,
   fun k hk => heap_frames_preserved h i ticker k hk,
   heap_outcome_agrees h i ticker⟩

/-- Witness for C9 at a one-frame heap holding the concrete good table. -/
theorem claim9_witness :
    0 < [dfDemo].length
    ∧ (create_candlestick_chart_heap [dfDemo] 0 "AAPL").1.getD 0 emptyDF
        = [dfDemo].getD 0 emptyDF
    ∧ (create_candlestick_chart_heap [dfDemo] 0 "AAPL").2
        = create_candlestick_chart dfDemo "AAPL" := by
  have h := claim9_input_table_unchanged [dfDemo] 0 "AAPL" (by decide)
  exact ⟨by decide, h.1, h.2.2⟩

/-- C5: when the provider raises, both fetch functions catch the error and
return the empty sentinel for their argument shape (empty frame for a
string or for the simple variant, empty dict for a list) instead of
propagating; and each function's result is determined by the provider's
response to the one resolved request, so no second attempt can be
observed. -/
theorem claim5_provider_error_yields_empty (fetch g : Fetch) (tickers : Tickers)
    (today : Int) (s? e? : Option Int) (interval : String) (msg : String)
    (hagree : g (resolveStart today s?) (resolveEnd today e?) interval
      = fetch (resolveStart today s?) (resolveEnd today e?) interval)
    (herr : fetch (resolveStart today s?) (resolveEnd today e?) interval
      = Except.error msg) :
    get_historical_data_graph fetch tickers today s? e? interval = emptySentinel tickers
    ∧ (∀ s, get_historical_data_graph fetch (Tickers.str s) today s? e? interval
        = FetchResult.table emptyMDF)
    ∧ (∀ ts, get_historical_data_graph fetch (Tickers.list ts) today s? e? interval
        = FetchResult.mapping [])
    ∧ get_historical_data fetch today s? e? interval = emptyMDF
    ∧ get_historical_data_graph g tickers today s? e? interval
        = get_historical_data_graph fetch tickers today s? e? interval
    ∧ get_historical_data g today s? e? interval
        = get_historical_data fetch today s? e? interval := by
  refine ⟨?_, ?_, ?_, ?_, ?_, ?_⟩
  · unfold get_historical_data_graph
    rw [herr]
  · intro s
    unfold get_historical_data_graph
    rw [herr]
    rfl
  · intro ts
    unfold get_historical_data_graph
    rw [herr]
    rfl
  · unfold get_historical_data
    rw [herr]
  · unfold get_historical_data_graph
    rw [hagree]
  · unfold get_historical_data
    rw [hagree]

/-- Witness for C5 at a provider oracle that always raises. -/
theorem claim5_witness :
    fetchErrDemo (resolveStart 0 none) (resolveEnd 0 none) "1d"
      = Except.error ("connection reset")
    ∧ get_historical_data_graph fetchErrDemo (Tickers.str "AAPL") 0 none none "1d"
        = FetchResult.table emptyMDF
    ∧ get_historical_data_graph fetchErrDemo (Tickers.list ["MSFT", "GOOGL"]) 0 none none "1d"
        = FetchResult.mapping []
    ∧ get_historical_data fetchErrDemo 0 none none "1d" = emptyMDF := by
  have h := claim5_provider_error_yields_empty fetchErrDemo fetchErrDemo
    (Tickers.str "AAPL") 0 none none "1d" "connection reset" rfl rfl
  have h2 := claim5_provider_error_yields_empty fetchErrDemo fetchErrDemo
    (Tickers.list ["MSFT", "GOOGL"]) 0 none none "1d" "connection reset" rfl rfl
  exact ⟨rfl, h.2.1 "AAPL", h2.2.2.1 ["MSFT", "GOOGL"], h.2.2.2.1⟩

/-- C6: when the dates are unspecified, the start date used is exactly
today minus 365 days and the end date is exactly today; given dates pass
through unchanged; and substituting the explicit defaults for the
unspecified dates changes nothing in either fetch function, since the
default-date computation is a plain function of the current date. -/
theorem claim6_default_dates (today : Int) :
    resolveStart today none = today - 365
    ∧ resolveEnd today none = today
    ∧ (∀ s, resolveStart today (some s) = s)
    ∧ (∀ e, resolveEnd today (some e) = e)
    ∧ (∀ (fetch : Fetch) (tickers : Tickers) (interval : String),
        get_historical_data_graph fetch tickers today none none interval
          = get_historical_data_graph fetch tickers today
              (some (today - 365)) (some today) interval)
    ∧ (∀ (fetch : Fetch) (interval : String),
        get_historical_data fetch today none none interval
          = get_historical_data fetch today (some (today - 365)) (some today) interval) :=
  ⟨rfl, rfl, fun _ => rfl, fun _ => rfl, fun _ _ _ => rfl, fun _ _ => rfl⟩

/-- C7: get_ticker_info returns None when the provider raises during the
metadata lookup, and returns the metadata handle itself on success, so a
caller can test for null instead of handling an error. -/
theorem claim7_null_handle_on_error :
    (∀ e : String, get_ticker_info (Except.error e) = none)
    ∧ (∀ t : Ticker, get_ticker_info (Except.ok t) = some t) :=
  ⟨fun _ => rfl, fun _ => rfl⟩

/-- C10: for a single-element list of tickers, a successful nonempty fetch
returns the downloaded frame itself (a table), while an empty fetch or a
provider error returns the empty dict; the two sentinels are values of
different constructors, so a caller testing for the empty-table sentinel
does not recognize the failure sentinel. -/
theorem claim10_single_element_list_shape (fetch : Fetch) (t : String)
    (today : Int) (s? e? : Option Int) (interval : String) (d : MultiDF)
    (msg : String) :
    (fetch (resolveStart today s?) (resolveEnd today e?) interval = Except.ok d →
      d.empty = false →
      get_historical_data_graph fetch (Tickers.list [t]) today s? e? interval
        = FetchResult.table d)
    ∧ (fetch (resolveStart today s?) (resolveEnd today e?) interval = Except.ok d →
      d.empty = true →
      get_historical_data_graph fetch (Tickers.list [t]) today s? e? interval
        = FetchResult.mapping [])
    ∧ (fetch (resolveStart today s?) (resolveEnd today e?) interval
        = Except.error msg →
      get_historical_data_graph fetch (Tickers.list [t]) today s? e? interval
        = FetchResult.mapping [])
    ∧ (∀ (d2 : MultiDF) (m : List (String × DF)),
        FetchResult.table d2 ≠ FetchResult.mapping m) := by
  refine ⟨?_, ?_, ?_, fun d2 m h => nomatch h⟩
  · intro hok hne
    unfold get_historical_data_graph
    rw [hok]
    dsimp only
    simp [hne]
  · intro hok hemp
    unfold get_historical_data_graph
    rw [hok]
    dsimp only
    simp [hemp, emptySentinel]
  · intro herr
    unfold get_historical_data_graph
    rw [herr]
    rfl

/-- Witness for C10 at concrete providers: success with a nonempty frame
gives the table shape, an empty download and a raised error both give the
empty dict. -/
theorem claim10_witness :
    (fetchOkDemo (resolveStart 0 none) (resolveEnd 0 none) "1d" = Except.ok mdDemo
      ∧ mdDemo.empty = false
      ∧ get_historical_data_graph fetchOkDemo (Tickers.list ["A"]) 0 none none "1d"
          = FetchResult.table mdDemo)
    ∧ get_historical_data_graph fetchEmptyDemo (Tickers.list ["A"]) 0 none none "1d"
        = FetchResult.mapping []
    ∧ get_historical_data_graph fetchErrDemo (Tickers.list ["A"]) 0 none none "1d"
        = FetchResult.mapping [] := by
  refine ⟨⟨rfl, rfl, ?_⟩, ?_, ?_⟩
  · exact (claim10_single_element_list_shape fetchOkDemo "A" 0 none none "1d"
      mdDemo "x").1 rfl rfl
  · exact (claim10_single_element_list_shape fetchEmptyDemo "A" 0 none none "1d"
      emptyMDF "x").2.1 rfl rfl
  · exact (claim10_single_element_list_shape fetchErrDemo "A" 0 none none "1d"
      emptyMDF "connection reset").2.2.1 rfl

/-- Inserting a fresh key into a python dict appends it. -/
theorem dictInsert_append (m : List (String × DF)) (k : String) (v : DF)
    (hk : m.any (fun p => p.1 == k) = false) :
    dictInsert m k v = m ++ [(k, v)] := by
  unfold dictInsert
  rw [hk]
  rfl

/-- Building a dict by comprehension over distinct keys, starting from any
dict that contains none of them, appends one entry per key in order. -/
theorem dictOfKeys_go (ts : List String) (f : String → DF) (m : List (String × DF))
    (hnd : ts.Nodup)
    (hdisj : ∀ t ∈ ts, m.any (fun p => p.1 == t) = false) :
    ts.foldl (fun acc t => dictInsert acc t (f t)) m
      = m ++ ts.map (fun t => (t, f t)) := by
  induction ts generalizing m with
  | nil => simp
  | cons a ts ih =>
    rw [List.foldl_cons, dictInsert_append m a (f a) (hdisj a (by simp))]
    rw [ih (m ++ [(a, f a)]) (List.Nodup.of_cons hnd)]
    · simp
    · intro t ht
      have h1 : m.any (fun p => p.1 == t) = false :=
        hdisj t (List.mem_cons_of_mem a ht)
      have h2 : a ≠ t := by
        intro h
        exact (List.nodup_cons.mp hnd).1 (h ▸ ht)
      simp [List.any_append, h1, h2]

/-- Over distinct keys, the dict comprehension is just the list of
key-value pairs in request order. -/
theorem dictOfKeys_eq_map (ts : List String) (f : String → DF) (hnd : ts.Nodup) :
    dictOfKeys ts f = ts.map (fun t => (t, f t)) := by
  have h := dictOfKeys_go ts f [] hnd (fun t _ => rfl)
  simpa [dictOfKeys] using h

/-- Cross-section on the ticker level keeps every row. -/
theorem xs_rows_length (d : MultiDF) (t : String) :
    (d.xs t).rows.length = d.rows.length := by
  simp [MultiDF.xs]

/-- C4: for a request with a list of more than one distinct ticker, on a
successful nonempty download in which every requested ticker occurs, the
splitting variant returns a mapping with exactly one entry per requested
ticker, in request order, each entry holding that ticker's own
single-symbol frame produced by the level-1 cross-section, and each
per-ticker frame has exactly as many rows as the combined frame. -/
theorem claim4_splitting_variant (fetch : Fetch) (ts : List String) (today : Int)
    (s? e? : Option Int) (interval : String) (d : MultiDF)
    (hok : fetch (resolveStart today s?) (resolveEnd today e?) interval
      = Except.ok d)
    (hne : d.empty = false)
    (hlen : ts.length > 1)
    (hnd : ts.Nodup)
    (hkeys : ∀ t ∈ ts, d.hasKey t = true) :
    get_historical_data_graph fetch (Tickers.list ts) today s? e? interval
      = FetchResult.mapping (ts.map (fun t => (t, d.xs t)))
    ∧ (ts.map (fun t => (t, d.xs t))).map Prod.fst = ts
    ∧ (∀ p ∈ ts.map (fun t => (t, d.xs t)), p.2.rows.length = d.rows.length) := by
  have hall : ts.all (fun t => d.hasKey t) = true := by
    rw [List.all_eq_true]
    exact hkeys
  refine ⟨?_, ?_, ?_⟩
  · unfold get_historical_data_graph
    rw [hok]
    dsimp only
    rw [hne]
    simp only [Bool.false_eq_true, if_false, if_pos hlen]
    unfold splitAll
    rw [hall]
    simp only [if_true]
    rw [dictOfKeys_eq_map ts (fun t => d.xs t) hnd]
  · rw [List.map_map]
    exact List.map_id ts
  · intro p hp
    obtain ⟨t, ht, hpt⟩ := List.mem_map.mp hp
    rw [← hpt]
    exact xs_rows_length d t

/-- Witness for C4 at the concrete two-ticker download. -/
theorem claim4_witness :
    (mdDemo.empty = false
      ∧ (["A", "B"] : List String).length > 1
      ∧ (["A", "B"] : List String).Nodup
      ∧ (∀ t ∈ (["A", "B"] : List String), mdDemo.hasKey t = true))
    ∧ get_historical_data_graph fetchOkDemo (Tickers.list ["A", "B"]) 0 none none "1d"
        = FetchResult.mapping [("A", mdDemo.xs "A"), ("B", mdDemo.xs "B")]
    ∧ (mdDemo.xs "A").rows.length = mdDemo.rows.length
    ∧ (mdDemo.xs "A").cols = ["Open", "Close"] := by
  have h := claim4_splitting_variant fetchOkDemo ["A", "B"] 0 none none "1d" mdDemo
    rfl (by decide) (by decide) (by decide) (by decide)
  exact ⟨⟨by decide, by decide, by decide, by decide⟩, h.1, by decide, by decide⟩

end MarketData
